import Mathlib

/-!
Shallow embedding of `src/SwitchMatrixScanner.h` (template class
`gh::thirtytwobits::SwitchMatrixScanner<ROW_COUNT, COL_COUNT, EVENT_BUFFER_SIZE>`).

The C++ class stores an `R x C` row-major array of `SwitchDef` records, two
fixed-capacity scancode event buffers with length counters, and drives GPIO
pins.  The GPIO side effects (pinMode / digitalWrite) carry no data relevant to
the claims; the raw `digitalRead` results are modelled as a list of booleans
(`is_switch_pressed`, one per cell in row-major scan order).  Handler
invocations are modelled as a trace: each flush that would call a non-null
handler appends the flushed scancode list to the trace.  Machine integers are
modelled as `Nat`; `sample_buffer` is a `uint8_t` so every store to it reduces
modulo 256 (the masks used by the code keep all stored values below 256
anyway).
-/

namespace SwitchMatrixScanner

/-- `enum SwitchState : uint8_t { UNKNOWN = 0, OPEN = 1, CLOSED = 2 }`. -/
inductive SwitchState : Type where
  | UNKNOWN : SwitchState
  | OPEN : SwitchState
  | CLOSED : SwitchState
deriving DecidableEq, Repr

instance : Inhabited SwitchState := ⟨SwitchState.UNKNOWN⟩

/-- `struct SwitchDef { uint16_t scancode; SwitchState state; uint8_t sample_buffer; }`. -/
structure SwitchDef where
  scancode : Nat
  state : SwitchState
  sample_buffer : Nat
deriving DecidableEq, Repr

instance : Inhabited SwitchDef := ⟨⟨0, SwitchState.UNKNOWN, 0⟩⟩

/-- `static constexpr const uint8_t DebounceSettleCount = 4;` -/
def DebounceSettleCount : Nat := 4

/-- `static constexpr const uint8_t DebounceSampleCount = 3;` -/
def DebounceSampleCount : Nat := 3

/-- `static constexpr const uint8_t DebounceSettleBits = 3;` -/
def DebounceSettleBits : Nat := 3

/-- `static constexpr const uint8_t DebounceSampleBits = 5;` -/
def DebounceSampleBits : Nat := 5

/-- `static constexpr const uint8_t DebounceSettleShift = DebounceSampleBits;` -/
def DebounceSettleShift : Nat := DebounceSampleBits

/-- `DebounceSettleMask = ((1 << DebounceSettleBits) - 1) << DebounceSettleShift` (= 0xE0). -/
def DebounceSettleMask : Nat := ((1 <<< DebounceSettleBits) - 1) <<< DebounceSettleShift

/-- `DebounceSampleMask = (1 << DebounceSampleBits) - 1` (= 0x1F). -/
def DebounceSampleMask : Nat := (1 <<< DebounceSampleBits) - 1

/-- `is_closed(sample_mask, sample_buffer) := (sample_mask & sample_buffer) == sample_mask`. -/
def is_closed (sample_mask sample_buffer : Nat) : Bool :=
  (sample_mask &&& sample_buffer) == sample_mask

/-- `is_open(sample_mask, sample_buffer) := (sample_mask & sample_buffer) == 0`. -/
def is_open (sample_mask sample_buffer : Nat) : Bool :=
  (sample_mask &&& sample_buffer) == 0

/-- `reset_sample_count(swtch) := DebounceSampleMask & swtch.sample_buffer`
(keeps the low sample-window bits, zeroes the settle-counter field). -/
def reset_sample_count (swtch : SwitchDef) : Nat :=
  DebounceSampleMask &&& swtch.sample_buffer

/-- `handleSoftwareDebounce` (src lines 312-326), acting on the `sample_buffer`
byte.  The result is stored into the `uint8_t` field, hence the `% 256`
(unreachable in practice: both branches produce values below 256). -/
def handleSoftwareDebounce (sample_buffer : Nat) (is_switch_pressed : Bool) : Nat :=
  let settle_count := (sample_buffer &&& DebounceSettleMask) >>> DebounceSettleShift
  if settle_count < DebounceSettleCount then
    (((settle_count + 1) <<< DebounceSettleShift) |||
      (DebounceSampleMask &&& sample_buffer)) % 256
  else
    ((settle_count <<< DebounceSettleShift) |||
      (DebounceSampleMask &&& (sample_buffer <<< 1)) |||
      (if is_switch_pressed then 1 else 0)) % 256

/-- Result of one `handleSwitchState` call: the updated cell, the scancode
appended to the closed (resp. opened) event buffer if any, and the returned
`pending_event` flag. -/
structure HSSResult where
  swtch : SwitchDef
  closedAppend : Option Nat
  openedAppend : Option Nat
  pending : Bool
deriving DecidableEq, Repr

/-- `handleSwitchState` (src lines 328-350).  The buffer writes
`m_scancode_event_buffer_*[len++] = swtch.scancode` are reported as
`closedAppend` / `openedAppend` and folded into the scan accumulator by
`scanCell`. -/
def handleSwitchState (swtch : SwitchDef) : HSSResult :=
  if is_closed DebounceSampleMask swtch.sample_buffer = true ∧
      swtch.state ≠ SwitchState.CLOSED then
    { swtch := { swtch with state := SwitchState.CLOSED,
                            sample_buffer := reset_sample_count swtch },
      closedAppend := some swtch.scancode, openedAppend := none, pending := true }
  else if is_open DebounceSampleMask swtch.sample_buffer = true ∧
      swtch.state ≠ SwitchState.OPEN then
    -- const SwitchState oldState = swtch.state (used in the inner test below)
    if swtch.state = SwitchState.UNKNOWN then
      { swtch := { swtch with state := SwitchState.OPEN,
                              sample_buffer := reset_sample_count swtch },
        closedAppend := none, openedAppend := some swtch.scancode, pending := true }
    else
      { swtch := { swtch with state := SwitchState.OPEN,
                              sample_buffer := reset_sample_count swtch },
        closedAppend := none, openedAppend := none, pending := false }
  else
    { swtch := swtch, closedAppend := none, openedAppend := none, pending := false }

/-- The per-cell body of the inner `scan()` loop before buffer handling:
sample (modelled by `is_switch_pressed`), debounce or direct overwrite of the
sample buffer, then `handleSwitchState` (src lines 173-188). -/
def cellResult (enable_software_debounce : Bool) (swtch : SwitchDef)
    (is_switch_pressed : Bool) : HSSResult :=
  handleSwitchState
    (if enable_software_debounce then
      { swtch with sample_buffer := handleSoftwareDebounce swtch.sample_buffer is_switch_pressed }
    else
      { swtch with sample_buffer := if is_switch_pressed then 0xFF else 0x00 })

/-- The scan-pass accumulator: the two event buffers (`m_scancode_event_buffer_*`
as lists, list length = the `_len` counter), the trace of handler invocations
for each kind, and a flag recording whether any buffer write ever happened at
an index at or beyond the buffer capacity (an out-of-bounds array write). -/
structure ScanAcc where
  closedBuf : List Nat
  openedBuf : List Nat
  closedTrace : List (List Nat)
  openedTrace : List (List Nat)
  oob : Bool
deriving DecidableEq, Repr

def ScanAcc.init : ScanAcc := ⟨[], [], [], [], false⟩

/-- `flush_closed_events` (src lines 288-295): invoke the handler with the
buffer contents when the count is positive, then reset the count. -/
def flush_closed_events (a : ScanAcc) : ScanAcc :=
  if a.closedBuf.length > 0 then
    { a with closedTrace := a.closedTrace ++ [a.closedBuf], closedBuf := [] }
  else a

/-- `flush_opened_events` (src lines 279-286). -/
def flush_opened_events (a : ScanAcc) : ScanAcc :=
  if a.openedBuf.length > 0 then
    { a with openedTrace := a.openedTrace ++ [a.openedBuf], openedBuf := [] }
  else a

/-- A write `m_scancode_event_buffer_closed[len++] = sc`: the write index is
the current length; it is out of bounds when `cap ≤ length`. -/
def appendClosed (cap : Nat) (a : ScanAcc) : Option Nat → ScanAcc
  | none => a
  | some sc =>
    { a with closedBuf := a.closedBuf ++ [sc],
             oob := a.oob || decide (cap ≤ a.closedBuf.length) }

def appendOpened (cap : Nat) (a : ScanAcc) : Option Nat → ScanAcc
  | none => a
  | some sc =>
    { a with openedBuf := a.openedBuf ++ [sc],
             oob := a.oob || decide (cap ≤ a.openedBuf.length) }

/-- The event-buffer bookkeeping of one inner-loop iteration of `scan()`
(src lines 188-202): fold the buffer writes reported by `handleSwitchState`
into the accumulator and, when a pending event was reported, flush mid-pass
any buffer that has reached `EVENT_BUFFER_SIZE`. -/
def bufferStep (cap : Nat) (a : ScanAcc) (r : HSSResult) : ScanAcc :=
  let a1 := appendOpened cap (appendClosed cap a r.closedAppend) r.openedAppend
  if r.pending then
    let a2 := if a1.closedBuf.length = cap then flush_closed_events a1 else a1
    if a2.openedBuf.length = cap then flush_opened_events a2 else a2
  else a1

/-- One iteration of the inner loop of `scan()` for one cell (src lines
171-202): debounce + `handleSwitchState`, then the buffer bookkeeping. -/
def scanCell (enable_software_debounce : Bool) (cap : Nat) (a : ScanAcc)
    (swtch : SwitchDef) (is_switch_pressed : Bool) : SwitchDef × ScanAcc :=
  let r := cellResult enable_software_debounce swtch is_switch_pressed
  (r.swtch, bufferStep cap a r)

/-- The double row/column loop of `scan()` flattened over the row-major cell
list, threading the raw pressed samples (one per cell) and the accumulator. -/
def scanCells (enable_software_debounce : Bool) (cap : Nat) :
    List SwitchDef → List Bool → ScanAcc → List SwitchDef × ScanAcc
  | [], _, a => ([], a)
  | swtch :: rest, ps, a =>
    let out := scanCell enable_software_debounce cap a swtch (ps.headD false)
    let outs := scanCells enable_software_debounce cap rest ps.tail out.2
    (out.1 :: outs.1, outs.2)

/-- The scanner state relevant to the claims: the row-major cell list, the
debounce flag, and the event-buffer capacity `EVENT_BUFFER_SIZE`. -/
structure Scanner where
  cells : List SwitchDef
  enable_software_debounce : Bool
  cap : Nat
deriving DecidableEq, Repr

/-- `scan()` (src lines 164-209): process every cell, then unconditionally
flush first the closed then the opened event buffer.  Both buffers are empty
at entry because every previous `scan()` ended with these flushes. -/
def scan (s : Scanner) (pressed : List Bool) : Scanner × ScanAcc :=
  let out := scanCells s.enable_software_debounce s.cap s.cells pressed ScanAcc.init
  ({ s with cells := out.1 }, flush_opened_events (flush_closed_events out.2))

/-- Iterate `scan` with a fixed raw-sample pattern, collecting each pass's
accumulator. -/
def scanN (s : Scanner) (pressed : List Bool) : Nat → Scanner × List ScanAcc
  | 0 => (s, [])
  | n + 1 =>
    let out := scan s pressed
    let outs := scanN out.1 pressed n
    (outs.1, out.2 :: outs.2)

/-- `isSwitchClosed` (src lines 224-238).  The method reads
`m_switch_map[row][col]` of the `R x C` row-major array; here `cells` is that
array flattened row-major, so the access is `cells.getD (row * C + col)`.
The method performs no writes, so it is embedded as a pure function. -/
def isSwitchClosed (R C : Nat) (cells : List SwitchDef) (scancode : Nat) : Bool :=
  if scancode = 0 then
    false
  else
    let scanindex := scancode - 1
    if R * C ≤ scanindex then
      false
    else
      let row := scanindex / C
      let col := scanindex - row * C
      (cells.getD (row * C + col) default).state == SwitchState.CLOSED

/-- The constructor's nested loops (src lines 123-130): row-major over the
`R x C` array, writing `{scancode++, UNKNOWN, 0}` with the counter starting at
1.  Flattened row-major, iteration `i` writes flat index `i`, so the array is
`R * C` sequential records with scancodes counting up from 1. -/
def mkCells : Nat → Nat → List SwitchDef
  | 0, _ => []
  | n + 1, scancode => ⟨scancode, SwitchState.UNKNOWN, 0⟩ :: mkCells n (scancode + 1)

def constructCells (R C : Nat) : List SwitchDef := mkCells (R * C) 1

/-- `m_switch_map[r][c]` of the flattened row-major cell list. -/
def cellAt (cells : List SwitchDef) (C r c : Nat) : SwitchDef :=
  cells.getD (r * C + c) default

/-- The settle-counter field of a `sample_buffer` byte. -/
def settleOf (sample_buffer : Nat) : Nat :=
  (sample_buffer &&& DebounceSettleMask) >>> DebounceSettleShift

lemma sampleMask_and_le (x : Nat) : DebounceSampleMask &&& x ≤ DebounceSampleMask := by
  rw [Nat.land_comm]
  exact Nat.and_le_right

lemma sampleMasked_and_settleMask (x : Nat) :
    (DebounceSampleMask &&& x) &&& DebounceSettleMask = 0 := by
  rw [Nat.land_comm DebounceSampleMask x, Nat.land_assoc,
    show DebounceSampleMask &&& DebounceSettleMask = 0 from by decide]
  simp

lemma sampleMasked_and_sampleMask (x : Nat) :
    (DebounceSampleMask &&& x) &&& DebounceSampleMask = DebounceSampleMask &&& x := by
  rw [Nat.land_comm DebounceSampleMask x, Nat.land_assoc,
    show DebounceSampleMask &&& DebounceSampleMask = DebounceSampleMask from by decide]


set_option maxRecDepth 8192 in
/-- Claim C1 (code-bug evaluation): a 1x1 scanner whose single cell is latched
CLOSED (sample window all ones, settle counter freshly reset) is fed 9 scans of
released raw samples: the sample window drains to all-0, the cell transitions
to OPEN and `isSwitchClosed` returns false — but the opened-event trace of
every one of the 9 passes is empty, so the open handler is never invoked.  The
claim (and the spec) say exactly one open event carrying scancode 1 is
delivered; the code enqueues an open event only when the previous state was
UNKNOWN, so transitions out of CLOSED are silent. -/
theorem c1_release_drops_open_event :
    (scanN ⟨[⟨1, SwitchState.CLOSED, 31⟩], true, 10⟩ [false] 9).1.cells
        = [⟨1, SwitchState.OPEN, 0⟩] ∧
    isSwitchClosed 1 1
        (scanN ⟨[⟨1, SwitchState.CLOSED, 31⟩], true, 10⟩ [false] 9).1.cells 1 = false ∧
    ((scanN ⟨[⟨1, SwitchState.CLOSED, 31⟩], true, 10⟩ [false] 9).2.map
        (fun a => a.openedTrace)) = List.replicate 9 [] := by
  decide

/-- Claim C2 (code-bug evaluation): on the very first scan after construction
of a 1x1 grid with the cell read as released, the cell transitions from
UNKNOWN to OPEN and the code DOES append its scancode to the opened-event
buffer and invoke the open handler with it — contradicting the claimed silent
initial transition (`oldState == UNKNOWN` is precisely the condition under
which the code enqueues the open event). -/
theorem c2_initial_open_event_emitted :
    ((scan ⟨constructCells 1 1, true, 10⟩ [false]).1.cells.getD 0 default).state
        = SwitchState.OPEN ∧
    (scan ⟨constructCells 1 1, true, 10⟩ [false]).2.openedTrace = [[1]] := by
  decide

set_option maxRecDepth 16384 in
/-- Claim C4: for every `sample_history` byte with debounce enabled, if the
settle-counter field is strictly below the saturation threshold (4), one
debounce step increments the settle counter by exactly one and leaves the
sample-window bits unchanged; if the settle counter equals the threshold, one
step shifts the sample window left by one bit within its 5-bit field, inserts
the new raw sample as the lowest bit, and leaves the settle counter at the
threshold. -/
theorem c4_debounce_settle_then_shift (sample_buffer : Nat) (is_switch_pressed : Bool)
    (hsb : sample_buffer < 256) :
    (settleOf sample_buffer < DebounceSettleCount →
      handleSoftwareDebounce sample_buffer is_switch_pressed &&& DebounceSampleMask
          = sample_buffer &&& DebounceSampleMask ∧
      settleOf (handleSoftwareDebounce sample_buffer is_switch_pressed)
          = settleOf sample_buffer + 1) ∧
    (settleOf sample_buffer = DebounceSettleCount →
      handleSoftwareDebounce sample_buffer is_switch_pressed &&& DebounceSampleMask
          = (((sample_buffer &&& DebounceSampleMask) <<< 1) &&& DebounceSampleMask)
              ||| (if is_switch_pressed then 1 else 0) ∧
      settleOf (handleSoftwareDebounce sample_buffer is_switch_pressed)
          = DebounceSettleCount) := by
  cases is_switch_pressed <;> (revert sample_buffer; decide)

/-- Witness for C4 at the byte 0x25 (settle counter 1, below threshold) with a
pressed raw sample. -/
theorem c4_witness :
    (37 : Nat) < 256 ∧
    ((settleOf 37 < DebounceSettleCount →
      handleSoftwareDebounce 37 true &&& DebounceSampleMask = 37 &&& DebounceSampleMask ∧
      settleOf (handleSoftwareDebounce 37 true) = settleOf 37 + 1) ∧
    (settleOf 37 = DebounceSettleCount →
      handleSoftwareDebounce 37 true &&& DebounceSampleMask
          = (((37 &&& DebounceSampleMask) <<< 1) &&& DebounceSampleMask) ||| 1 ∧
      settleOf (handleSoftwareDebounce 37 true) = DebounceSettleCount)) :=
  ⟨by decide, c4_debounce_settle_then_shift 37 true (by decide)⟩

/-- Claim C5 counterexample: at a concrete transition to CLOSED (cell OPEN,
sample buffer 0x9F: settle counter saturated, window all ones) the sample
window's low bits of `sample_history` are NOT reset to 0 — they remain 0x1F;
`reset_sample_count` keeps the window bits and zeroes the settle-counter field
instead. -/
theorem c5_counterexample :
    (handleSwitchState ⟨1, SwitchState.OPEN, 159⟩).swtch.state = SwitchState.CLOSED ∧
    ¬((handleSwitchState ⟨1, SwitchState.OPEN, 159⟩).swtch.sample_buffer &&&
        DebounceSampleMask = 0) := by
  decide

/-- Claim C5 (amended): every transition to CLOSED latches state=CLOSED,
appends the cell's scancode to the closed-event buffer, and zeroes the
settle-counter field of `sample_history` while preserving the sample-window
low bits, so a fresh settle period begins (the settle counter restarts
from 0). -/
theorem c5_closed_transition (swtch : SwitchDef)
    (hclosed : is_closed DebounceSampleMask swtch.sample_buffer = true)
    (hstate : swtch.state ≠ SwitchState.CLOSED) :
    (handleSwitchState swtch).swtch.state = SwitchState.CLOSED ∧
    (handleSwitchState swtch).closedAppend = some swtch.scancode ∧
    settleOf (handleSwitchState swtch).swtch.sample_buffer = 0 ∧
    (handleSwitchState swtch).swtch.sample_buffer &&& DebounceSampleMask
        = swtch.sample_buffer &&& DebounceSampleMask := by
  have hcond : is_closed DebounceSampleMask swtch.sample_buffer = true ∧
      swtch.state ≠ SwitchState.CLOSED := ⟨hclosed, hstate⟩
  simp only [handleSwitchState, if_pos hcond]
  refine ⟨trivial, trivial, ?_, ?_⟩
  · unfold settleOf reset_sample_count
    rw [sampleMasked_and_settleMask]
    decide
  · unfold reset_sample_count
    rw [sampleMasked_and_sampleMask, Nat.land_comm DebounceSampleMask swtch.sample_buffer]

lemma mkCells_length (n k : Nat) : (mkCells n k).length = n := by
  induction n generalizing k with
  | zero => rfl
  | succ n ih => simp [mkCells, ih]

lemma mkCells_getD (n k i : Nat) (h : i < n) :
    (mkCells n k).getD i default = ⟨k + i, SwitchState.UNKNOWN, 0⟩ := by
  induction n generalizing k i with
  | zero => omega
  | succ n ih =>
    cases i with
    | zero => simp [mkCells]
    | succ i =>
      have htail := ih (k + 1) i (by omega)
      simp only [mkCells, List.getD_cons_succ, htail]
      have : k + 1 + i = k + (i + 1) := by omega
      rw [this]

lemma constructCells_getD_state (R C i : Nat) :
    ((constructCells R C).getD i default).state = SwitchState.UNKNOWN := by
  unfold constructCells
  rcases Nat.lt_or_ge i (R * C) with h | h
  · rw [mkCells_getD (R * C) 1 i h]
  · rw [List.getD_eq_default _ _ (by rw [mkCells_length]; exact h)]
    rfl

lemma mkCells_map_scancode (n k : Nat) :
    (mkCells n k).map (fun sw => sw.scancode) = List.range' k n := by
  induction n generalizing k with
  | zero => rfl
  | succ n ih => simp [mkCells, ih, List.range'_succ]

lemma mod_eq_sub_div_mul (a C : Nat) : a - a / C * C = a % C := by
  have hd := Nat.div_add_mod a C
  have hc : a / C * C = C * (a / C) := Nat.mul_comm _ _
  omega

/-- Claim C6: `isSwitchClosed` returns false for scancode 0 and for every
scancode beyond `R * C`; for every scancode in `[1, R * C]` it returns true
exactly when the cell at row `(s-1)/C`, column `(s-1) mod C` has latched state
CLOSED.  The C++ method performs no writes, so its embedding is a pure
function of the cell array: "no modification of scanner state" holds by
construction. -/
theorem c6_isSwitchClosed_query (R C : Nat) (cells : List SwitchDef) (scancode : Nat)
    (hs : scancode < 65536) :
    ((scancode = 0 ∨ R * C < scancode) → isSwitchClosed R C cells scancode = false) ∧
    (1 ≤ scancode → scancode ≤ R * C →
      (isSwitchClosed R C cells scancode = true ↔
        (cellAt cells C ((scancode - 1) / C) ((scancode - 1) % C)).state
          = SwitchState.CLOSED)) := by
  constructor
  · intro h
    rcases h with h0 | hgt
    · subst h0; rfl
    · have h0 : ¬(scancode = 0) := by omega
      simp only [isSwitchClosed, if_neg h0]
      rw [if_pos (by omega : R * C ≤ scancode - 1)]
  · intro h1 h2
    have h0 : ¬(scancode = 0) := by omega
    simp only [isSwitchClosed, if_neg h0]
    rw [if_neg (by omega : ¬(R * C ≤ scancode - 1))]
    unfold cellAt
    rw [mod_eq_sub_div_mul (scancode - 1) C]
    exact beq_iff_eq

/-- Witness for C6: a 2x3 grid right after construction, scancode 5 (row 1,
column 1): both bounds behaviors and the in-range equivalence, instantiated. -/
theorem c6_witness :
    (5 : Nat) < 65536 ∧
    (((5 : Nat) = 0 ∨ 2 * 3 < 5) → isSwitchClosed 2 3 (constructCells 2 3) 5 = false) ∧
    (1 ≤ 5 → (5 : Nat) ≤ 2 * 3 →
      (isSwitchClosed 2 3 (constructCells 2 3) 5 = true ↔
        (cellAt (constructCells 2 3) 3 ((5 - 1) / 3) ((5 - 1) % 3)).state
          = SwitchState.CLOSED)) :=
  ⟨by decide, c6_isSwitchClosed_query 2 3 (constructCells 2 3) 5 (by decide)⟩

/-- Claim C7: construction assigns scancodes exactly `{1, ..., R*C}` row-major
(the cell at row `r`, column `c` receives `r*C + c + 1`), initializes every
cell's state to UNKNOWN and `sample_history` to 0, and `isSwitchClosed` is
false for every scancode immediately after construction. -/
theorem c7_construction (R C : Nat) (hR : 0 < R) (hC : 0 < C) :
    (constructCells R C).map (fun sw => sw.scancode) = List.range' 1 (R * C) ∧
    (∀ r c, r < R → c < C →
      cellAt (constructCells R C) C r c = ⟨r * C + c + 1, SwitchState.UNKNOWN, 0⟩) ∧
    (∀ sc, isSwitchClosed R C (constructCells R C) sc = false) := by
  refine ⟨?_, ?_, ?_⟩
  · exact mkCells_map_scancode (R * C) 1
  · intro r c hr hc
    unfold cellAt constructCells
    have hidx : r * C + c < R * C := by
      calc r * C + c < r * C + C := by omega
        _ = (r + 1) * C := (Nat.succ_mul r C).symm
        _ ≤ R * C := Nat.mul_le_mul_right C hr
    rw [mkCells_getD (R * C) 1 (r * C + c) hidx]
    have : 1 + (r * C + c) = r * C + c + 1 := by omega
    rw [this]
  · intro sc
    by_cases h0 : sc = 0
    · subst h0; rfl
    · simp only [isSwitchClosed, if_neg h0]
      by_cases hin : R * C ≤ sc - 1
      · rw [if_pos hin]
      · rw [if_neg hin]
        have hu := constructCells_getD_state R C
          ((sc - 1) / C * C + (sc - 1 - (sc - 1) / C * C))
        rw [hu]
        rfl

/-- Witness for C7 at a 2x3 grid: the scancode list, the cell at row 1 and
column 2, and `isSwitchClosed 4`, instantiated through the theorem. -/
theorem c7_witness :
    (constructCells 2 3).map (fun sw => sw.scancode) = List.range' 1 (2 * 3) ∧
    cellAt (constructCells 2 3) 3 1 2 = ⟨1 * 3 + 2 + 1, SwitchState.UNKNOWN, 0⟩ ∧
    isSwitchClosed 2 3 (constructCells 2 3) 4 = false :=
  ⟨(c7_construction 2 3 (by decide) (by decide)).1,
   (c7_construction 2 3 (by decide) (by decide)).2.1 1 2 (by decide) (by decide),
   (c7_construction 2 3 (by decide) (by decide)).2.2 4⟩

/-- Witness for C5 at a cell with scancode 7, state OPEN and sample buffer
0x9F (window all ones). -/
theorem c5_witness :
    is_closed DebounceSampleMask (159 : Nat) = true ∧
    SwitchState.OPEN ≠ SwitchState.CLOSED ∧
    ((handleSwitchState ⟨7, SwitchState.OPEN, 159⟩).swtch.state = SwitchState.CLOSED ∧
     (handleSwitchState ⟨7, SwitchState.OPEN, 159⟩).closedAppend = some 7 ∧
     settleOf (handleSwitchState ⟨7, SwitchState.OPEN, 159⟩).swtch.sample_buffer = 0 ∧
     (handleSwitchState ⟨7, SwitchState.OPEN, 159⟩).swtch.sample_buffer &&&
        DebounceSampleMask = 159 &&& DebounceSampleMask) :=
  ⟨by decide, by decide, c5_closed_transition ⟨7, SwitchState.OPEN, 159⟩ (by decide) (by decide)⟩

lemma handleSwitchState_state_unknown (swtch : SwitchDef)
    (h : (handleSwitchState swtch).swtch.state = SwitchState.UNKNOWN) :
    swtch.state = SwitchState.UNKNOWN := by
  unfold handleSwitchState at h
  split_ifs at h <;> simp_all

lemma cellResult_state_unknown (debounce : Bool) (swtch : SwitchDef) (pressed : Bool)
    (h : (cellResult debounce swtch pressed).swtch.state = SwitchState.UNKNOWN) :
    swtch.state = SwitchState.UNKNOWN := by
  unfold cellResult at h
  cases debounce <;> simpa using handleSwitchState_state_unknown _ h

/-- The cell list produced by one scan pass, cell by cell (the accumulator does
not influence how any cell evolves). -/
def stepCellsList (debounce : Bool) : List SwitchDef → List Bool → List SwitchDef
  | [], _ => []
  | swtch :: rest, ps =>
    (cellResult debounce swtch (ps.headD false)).swtch :: stepCellsList debounce rest ps.tail

lemma scanCells_fst (debounce : Bool) (cap : Nat) (cells : List SwitchDef)
    (ps : List Bool) (a : ScanAcc) :
    (scanCells debounce cap cells ps a).1 = stepCellsList debounce cells ps := by
  induction cells generalizing ps a with
  | nil => rfl
  | cons swtch rest ih => simp [scanCells, stepCellsList, scanCell, ih]

lemma stepCellsList_length (debounce : Bool) (cells : List SwitchDef) (ps : List Bool) :
    (stepCellsList debounce cells ps).length = cells.length := by
  induction cells generalizing ps with
  | nil => rfl
  | cons swtch rest ih => simp [stepCellsList, ih]

lemma tail_getD (ps : List Bool) (i : Nat) : ps.tail.getD i false = ps.getD (i + 1) false := by
  cases ps <;> rfl

lemma headD_getD (ps : List Bool) : ps.headD false = ps.getD 0 false := by
  cases ps <;> rfl

lemma stepCellsList_getD (debounce : Bool) (cells : List SwitchDef) (ps : List Bool)
    (i : Nat) (h : i < cells.length) :
    (stepCellsList debounce cells ps).getD i default
      = (cellResult debounce (cells.getD i default) (ps.getD i false)).swtch := by
  induction cells generalizing ps i with
  | nil => simp at h
  | cons swtch rest ih =>
    cases i with
    | zero => cases ps <;> rfl
    | succ i =>
      have htail := ih ps.tail i (by simpa using Nat.lt_of_succ_lt_succ h)
      have hcons : (stepCellsList debounce (swtch :: rest) ps).getD (i + 1) default
          = (stepCellsList debounce rest ps.tail).getD i default := rfl
      rw [hcons, htail, tail_getD]
      rfl

/-- Claim C8: no operation ever assigns UNKNOWN after construction.  `scan`
never turns a non-UNKNOWN cell back to UNKNOWN (`handleSwitchState` only ever
writes OPEN or CLOSED, and the debounce step does not touch `state`); `setup`
only stores the handler pointers and configures pins, and `isSwitchClosed`
performs no writes, so neither touches any cell state.  Hence UNKNOWN-ness is
monotonically decreasing across every step. -/
theorem c8_unknown_never_reentered (s : Scanner) (pressed : List Bool) (i : Nat)
    (h : (s.cells.getD i default).state ≠ SwitchState.UNKNOWN) :
    (((scan s pressed).1.cells.getD i default).state ≠ SwitchState.UNKNOWN) := by
  intro hu
  apply h
  have hfst : (scan s pressed).1.cells
      = stepCellsList s.enable_software_debounce s.cells pressed := by
    unfold scan
    exact scanCells_fst _ _ _ _ _
  rw [hfst] at hu
  rcases Nat.lt_or_ge i s.cells.length with hlt | hge
  · rw [stepCellsList_getD _ _ _ _ hlt] at hu
    exact cellResult_state_unknown _ _ _ hu
  · rw [List.getD_eq_default _ _ hge]
    rfl

/-- The scancodes written into the closed-event buffer during one pass, in
write order (one optional write per cell, from `handleSwitchState`). -/
def closedAppendList (debounce : Bool) : List SwitchDef → List Bool → List Nat
  | [], _ => []
  | swtch :: rest, ps =>
    (cellResult debounce swtch (ps.headD false)).closedAppend.toList ++
      closedAppendList debounce rest ps.tail

/-- The scancodes written into the opened-event buffer during one pass, in
write order. -/
def openedAppendList (debounce : Bool) : List SwitchDef → List Bool → List Nat
  | [], _ => []
  | swtch :: rest, ps =>
    (cellResult debounce swtch (ps.headD false)).openedAppend.toList ++
      openedAppendList debounce rest ps.tail

/-- Shape of every `handleSwitchState` result: at most one buffer write, and
`pending_event` is returned exactly when a write happened. -/
def HSSShape (r : HSSResult) : Prop :=
  ((∃ sc, r.closedAppend = some sc) ∧ r.openedAppend = none ∧ r.pending = true) ∨
  (r.closedAppend = none ∧ (∃ sc, r.openedAppend = some sc) ∧ r.pending = true) ∨
  (r.closedAppend = none ∧ r.openedAppend = none ∧ r.pending = false)

lemma cellResult_shape (debounce : Bool) (swtch : SwitchDef) (pressed : Bool) :
    HSSShape (cellResult debounce swtch pressed) := by
  unfold HSSShape cellResult handleSwitchState
  split_ifs <;> simp

/-- Invariant of one event buffer and its flush trace during a pass: every
mid-pass flush delivered exactly `cap` scancodes, and the buffer count is
strictly below capacity (so the next write index is in bounds). -/
def BufInv (cap : Nat) (tr : List (List Nat)) (buf : List Nat) : Prop :=
  (∀ ch ∈ tr, ch.length = cap) ∧ buf.length < cap

lemma bufferStep_spec (cap : Nat) (a : ScanAcc) (r : HSSResult)
    (hr : HSSShape r)
    (hc : BufInv cap a.closedTrace a.closedBuf)
    (ho : BufInv cap a.openedTrace a.openedBuf)
    (hoob : a.oob = false) :
    BufInv cap (bufferStep cap a r).closedTrace (bufferStep cap a r).closedBuf ∧
    BufInv cap (bufferStep cap a r).openedTrace (bufferStep cap a r).openedBuf ∧
    (bufferStep cap a r).oob = false ∧
    (bufferStep cap a r).closedTrace.join ++ (bufferStep cap a r).closedBuf
      = a.closedTrace.join ++ a.closedBuf ++ r.closedAppend.toList ∧
    (bufferStep cap a r).openedTrace.join ++ (bufferStep cap a r).openedBuf
      = a.openedTrace.join ++ a.openedBuf ++ r.openedAppend.toList := by
  have hclen := hc.2
  have holen := ho.2
  rcases hr with ⟨⟨sc, hca⟩, hoa, hp⟩ | ⟨hca, ⟨sc, hoa⟩, hp⟩ | ⟨hca, hoa, hp⟩
  · -- a closed-buffer write happened
    have hdc : decide (cap ≤ a.closedBuf.length) = false := decide_eq_false (by omega)
    simp only [bufferStep, hca, hoa, hp, appendClosed, appendOpened, hoob, hdc,
      Bool.or_false, if_true]
    by_cases hfull : ((a.closedBuf ++ [sc]).length = cap)
    · rw [if_pos hfull]
      have hflush : (flush_closed_events
          { a with closedBuf := a.closedBuf ++ [sc], oob := false })
          = { a with
              closedBuf := []
              oob := false
              closedTrace := a.closedTrace ++ [a.closedBuf ++ [sc]] } := by
        simp [flush_closed_events]
      rw [hflush]
      rw [if_neg (by simpa using Nat.ne_of_lt holen)]
      have hcap : 0 < cap := by
        simp only [List.length_append, List.length_singleton] at hfull
        omega
      refine ⟨⟨?_, by simpa using hcap⟩, ⟨ho.1, holen⟩, rfl, ?_, ?_⟩
      · intro ch hch
        rcases List.mem_append.mp hch with h | h
        · exact hc.1 ch h
        · rw [List.mem_singleton.mp h]
          exact hfull
      · simp [List.join_append]
      · simp
    · rw [if_neg hfull]
      rw [if_neg (by simpa using Nat.ne_of_lt holen)]
      refine ⟨⟨hc.1, ?_⟩, ⟨ho.1, holen⟩, rfl, ?_, ?_⟩
      · simp only [List.length_append, List.length_singleton] at hfull ⊢
        omega
      · simp
      · simp
  · -- an opened-buffer write happened
    have hdo : decide (cap ≤ a.openedBuf.length) = false := decide_eq_false (by omega)
    have hclosedne : a.closedBuf.length ≠ cap := Nat.ne_of_lt hclen
    by_cases hfull : ((a.openedBuf ++ [sc]).length = cap)
    · simp only [List.length_append, List.length_singleton] at hfull
      have hcap : 0 < cap := by omega
      have hbs : bufferStep cap a r = { a with
          openedBuf := []
          oob := false
          openedTrace := a.openedTrace ++ [a.openedBuf ++ [sc]] } := by
        simp [bufferStep, appendClosed, appendOpened, flush_opened_events, hca, hoa, hp,
          hoob, hdo, hclosedne, hfull, hcap]
      rw [hbs]
      refine ⟨⟨hc.1, hclen⟩, ⟨?_, (by simp only [List.length_nil]; omega)⟩, rfl,
        by simp [hca], ?_⟩
      · intro ch hch
        rcases List.mem_append.mp hch with h | h
        · exact ho.1 ch h
        · rw [List.mem_singleton.mp h]
          simp only [List.length_append, List.length_singleton]
          omega
      · simp [List.join_append, hoa]
    · simp only [List.length_append, List.length_singleton] at hfull
      have hbs : bufferStep cap a r = { a with
          openedBuf := a.openedBuf ++ [sc]
          oob := false } := by
        simp [bufferStep, appendClosed, appendOpened, hca, hoa, hp, hoob, hdo, hclosedne,
          hfull]
      rw [hbs]
      refine ⟨⟨hc.1, hclen⟩,
        ⟨ho.1, (by simp only [List.length_append, List.length_singleton]; omega)⟩, rfl,
        by simp [hca], by simp [hoa]⟩
  · -- no buffer write: the accumulator is unchanged
    have hbs : bufferStep cap a r = a := by
      simp [bufferStep, appendClosed, appendOpened, hca, hoa, hp]
    rw [hbs]
    exact ⟨hc, ho, hoob, by simp [hca], by simp [hoa]⟩

lemma scanCells_spec (debounce : Bool) (cap : Nat) :
    ∀ (cells : List SwitchDef) (ps : List Bool) (a : ScanAcc),
      BufInv cap a.closedTrace a.closedBuf → BufInv cap a.openedTrace a.openedBuf →
      a.oob = false →
      BufInv cap (scanCells debounce cap cells ps a).2.closedTrace
          (scanCells debounce cap cells ps a).2.closedBuf ∧
      BufInv cap (scanCells debounce cap cells ps a).2.openedTrace
          (scanCells debounce cap cells ps a).2.openedBuf ∧
      (scanCells debounce cap cells ps a).2.oob = false ∧
      (scanCells debounce cap cells ps a).2.closedTrace.join ++
          (scanCells debounce cap cells ps a).2.closedBuf
        = a.closedTrace.join ++ a.closedBuf ++ closedAppendList debounce cells ps ∧
      (scanCells debounce cap cells ps a).2.openedTrace.join ++
          (scanCells debounce cap cells ps a).2.openedBuf
        = a.openedTrace.join ++ a.openedBuf ++ openedAppendList debounce cells ps := by
  intro cells
  induction cells with
  | nil =>
    intro ps a hc ho hoob
    exact ⟨hc, ho, hoob, by simp [scanCells, closedAppendList],
      by simp [scanCells, openedAppendList]⟩
  | cons swtch rest ih =>
    intro ps a hc ho hoob
    have hstep := bufferStep_spec cap a (cellResult debounce swtch (ps.headD false))
      (cellResult_shape debounce swtch (ps.headD false)) hc ho hoob
    have hunfold : (scanCells debounce cap (swtch :: rest) ps a).2
        = (scanCells debounce cap rest ps.tail
            (bufferStep cap a (cellResult debounce swtch (ps.headD false)))).2 := rfl
    rw [hunfold]
    obtain ⟨h1, h2, h3, h4, h5⟩ := ih ps.tail _ hstep.1 hstep.2.1 hstep.2.2.1
    refine ⟨h1, h2, h3, ?_, ?_⟩
    · rw [h4, hstep.2.2.2.1]
      simp [closedAppendList, List.append_assoc]
    · rw [h5, hstep.2.2.2.2]
      simp [openedAppendList, List.append_assoc]

lemma flush_closed_events_closedTrace (a : ScanAcc) :
    (flush_closed_events a).closedTrace
      = a.closedTrace ++ (if 0 < a.closedBuf.length then [a.closedBuf] else []) := by
  unfold flush_closed_events
  split <;> simp

lemma flush_opened_events_openedTrace (a : ScanAcc) :
    (flush_opened_events a).openedTrace
      = a.openedTrace ++ (if 0 < a.openedBuf.length then [a.openedBuf] else []) := by
  unfold flush_opened_events
  split <;> simp

lemma flush_closed_events_openedTrace (a : ScanAcc) :
    (flush_closed_events a).openedTrace = a.openedTrace := by
  unfold flush_closed_events
  split <;> rfl

lemma flush_closed_events_openedBuf (a : ScanAcc) :
    (flush_closed_events a).openedBuf = a.openedBuf := by
  unfold flush_closed_events
  split <;> rfl

lemma flush_opened_events_closedTrace (a : ScanAcc) :
    (flush_opened_events a).closedTrace = a.closedTrace := by
  unfold flush_opened_events
  split <;> rfl

lemma flush_closed_events_oob (a : ScanAcc) : (flush_closed_events a).oob = a.oob := by
  unfold flush_closed_events
  split <;> rfl

lemma flush_opened_events_oob (a : ScanAcc) : (flush_opened_events a).oob = a.oob := by
  unfold flush_opened_events
  split <;> rfl

lemma join_length_uniform (cap : Nat) :
    ∀ (tr : List (List Nat)), (∀ ch ∈ tr, ch.length = cap) →
      tr.join.length = cap * tr.length := by
  intro tr
  induction tr with
  | nil => simp
  | cons c tr ih =>
    intro h
    have hc := h c (by simp)
    have htr := ih (fun ch hch => h ch (by simp [hch]))
    simp [htr, hc, Nat.mul_succ]
    omega

/-- The two-invocation shape of a flush trace when exactly `cap + 1` scancodes
were appended during the pass: the mid-pass chunks (all of length `cap`) plus
the end-of-pass remainder are exactly the first `cap` appends followed by the
rest. -/
lemma chunked_two_invocations (cap : Nat) (tr : List (List Nat)) (buf L : List Nat)
    (hu : ∀ ch ∈ tr, ch.length = cap) (hb : buf.length < cap)
    (hjoin : tr.join ++ buf = L) (hlen : L.length = cap + 1) :
    tr ++ (if 0 < buf.length then [buf] else []) = [L.take cap, L.drop cap] := by
  have hLl : tr.join.length + buf.length = cap + 1 := by
    rw [← hlen, ← hjoin]
    simp
  match tr with
  | [] =>
    exfalso
    simp only [List.join_nil, List.length_nil] at hLl
    omega
  | [c1] =>
    have hc1 : c1.length = cap := hu c1 (by simp)
    have hj : ([c1] : List (List Nat)).join = c1 := by simp
    rw [hj] at hjoin hLl
    have hbuf1 : buf.length = 1 := by omega
    rw [if_pos (by omega)]
    have ht : L.take cap = c1 := by
      rw [← hjoin]
      exact List.take_left' hc1
    have hd : L.drop cap = buf := by
      rw [← hjoin]
      exact List.drop_left' hc1
    rw [ht, hd]
    rfl
  | [c1, c2] =>
    have hc1 : c1.length = cap := hu c1 (by simp)
    have hc2 : c2.length = cap := hu c2 (by simp)
    have hj : ([c1, c2] : List (List Nat)).join = c1 ++ c2 := by simp
    rw [hj] at hjoin hLl
    simp only [List.length_append] at hLl
    have hcap1 : cap = 1 := by omega
    have hbuf0 : buf = [] := List.length_eq_zero.mp (by omega)
    subst hbuf0
    rw [if_neg (by simp)]
    simp only [List.append_nil] at hjoin
    have ht : L.take cap = c1 := by
      rw [← hjoin]
      exact List.take_left' hc1
    have hd : L.drop cap = c2 := by
      rw [← hjoin]
      exact List.drop_left' hc1
    rw [ht, hd]
    simp
  | c1 :: c2 :: c3 :: tr' =>
    exfalso
    have h3 : 3 ≤ (c1 :: c2 :: c3 :: tr').length := by simp
    have hmul : cap * 3 ≤ cap * (c1 :: c2 :: c3 :: tr').length :=
      Nat.mul_le_mul_left cap h3
    have hjl : (c1 :: c2 :: c3 :: tr').join.length
        = cap * (c1 :: c2 :: c3 :: tr').length := join_length_uniform cap _ hu
    rw [hjl] at hLl
    omega

/-- Claim C9: whenever the closed handler or the open handler is invoked
(mid-pass flush or end-of-pass flush), the scancode count is at least 1 and at
most EVENT_BUFFER_SIZE; neither handler is ever called with count 0 (the
flush helpers return without invoking the handler when the buffer count is
zero, and a mid-pass flush happens exactly at capacity). -/
theorem c9_flush_count_bounds (s : Scanner) (pressed : List Bool) (hcap : 0 < s.cap) :
    ∀ inv ∈ (scan s pressed).2.closedTrace ++ (scan s pressed).2.openedTrace,
      1 ≤ inv.length ∧ inv.length ≤ s.cap := by
  have hinitc : BufInv s.cap ScanAcc.init.closedTrace ScanAcc.init.closedBuf :=
    ⟨by simp [ScanAcc.init], by simpa [ScanAcc.init] using hcap⟩
  have hinito : BufInv s.cap ScanAcc.init.openedTrace ScanAcc.init.openedBuf :=
    ⟨by simp [ScanAcc.init], by simpa [ScanAcc.init] using hcap⟩
  obtain ⟨hc, ho, hoob, h4, h5⟩ := scanCells_spec s.enable_software_debounce s.cap
    s.cells pressed ScanAcc.init hinitc hinito rfl
  intro inv hinv
  have hscan : (scan s pressed).2 = flush_opened_events (flush_closed_events
      (scanCells s.enable_software_debounce s.cap s.cells pressed ScanAcc.init).2) := rfl
  rw [hscan, flush_opened_events_closedTrace, flush_closed_events_closedTrace,
    flush_opened_events_openedTrace, flush_closed_events_openedTrace,
    flush_closed_events_openedBuf] at hinv
  rcases List.mem_append.mp hinv with h | h
  · rcases List.mem_append.mp h with h' | h'
    · have := hc.1 inv h'
      omega
    · by_cases hbz : 0 < (scanCells s.enable_software_debounce s.cap s.cells pressed
          ScanAcc.init).2.closedBuf.length
      · rw [if_pos hbz] at h'
        rw [List.mem_singleton.mp h']
        have := hc.2
        omega
      · rw [if_neg hbz] at h'
        simp at h'
  · rcases List.mem_append.mp h with h' | h'
    · have := ho.1 inv h'
      omega
    · by_cases hbz : 0 < (scanCells s.enable_software_debounce s.cap s.cells pressed
          ScanAcc.init).2.openedBuf.length
      · rw [if_pos hbz] at h'
        rw [List.mem_singleton.mp h']
        have := ho.2
        omega
      · rw [if_neg hbz] at h'
        simp at h'

/-- Witness for C9: the end-of-pass flush of the initial UNKNOWN-to-OPEN event
of a 1x1 scanner carries exactly one scancode, within the bounds. -/
theorem c9_witness :
    (0 : Nat) < (⟨[⟨1, SwitchState.UNKNOWN, 0⟩], true, 10⟩ : Scanner).cap ∧
    (([1] : List Nat) ∈
      (scan ⟨[⟨1, SwitchState.UNKNOWN, 0⟩], true, 10⟩ [false]).2.closedTrace ++
        (scan ⟨[⟨1, SwitchState.UNKNOWN, 0⟩], true, 10⟩ [false]).2.openedTrace) ∧
    (1 ≤ ([1] : List Nat).length ∧
      ([1] : List Nat).length ≤ (⟨[⟨1, SwitchState.UNKNOWN, 0⟩], true, 10⟩ : Scanner).cap) :=
  ⟨by decide, by decide,
    c9_flush_count_bounds ⟨[⟨1, SwitchState.UNKNOWN, 0⟩], true, 10⟩ [false] (by decide)
      [1] (by decide)⟩

/-- Claim C3 counterexample: with capacity N = 1 and one scan pass producing
N + 1 = 2 transitions of the opened kind (two cells go CLOSED to OPEN), the
open handler is invoked 0 times, not 2: transitions out of CLOSED enqueue no
event, so the buffer machinery never sees them.  Hence "N+1 transitions of
that kind" must be counted as enqueued events, not state transitions. -/
theorem c3_counterexample :
    ((scan ⟨[⟨1, SwitchState.CLOSED, 128⟩, ⟨2, SwitchState.CLOSED, 128⟩], true, 1⟩
        [false, false]).1.cells.map (fun sw => sw.state))
      = [SwitchState.OPEN, SwitchState.OPEN] ∧
    ¬((scan ⟨[⟨1, SwitchState.CLOSED, 128⟩, ⟨2, SwitchState.CLOSED, 128⟩], true, 1⟩
        [false, false]).2.openedTrace.length = 2) := by
  decide

/-- Claim C3 (amended): for each event buffer of capacity N, every scan() pass
that enqueues N+1 events of that kind (for the closed buffer: transitions to
CLOSED; for the opened buffer: UNKNOWN-to-OPEN transitions) invokes the
corresponding handler exactly twice — the trace is precisely the first N
enqueued scancodes followed by the remaining one(s) — so the two invocations
together carry every enqueued scancode exactly once in order, and no buffer
write ever happens at an index at or beyond the capacity. -/
theorem c3_overflow_two_flushes (s : Scanner) (pressed : List Bool) (hcap : 0 < s.cap) :
    ((closedAppendList s.enable_software_debounce s.cells pressed).length = s.cap + 1 →
      (scan s pressed).2.closedTrace
        = [(closedAppendList s.enable_software_debounce s.cells pressed).take s.cap,
           (closedAppendList s.enable_software_debounce s.cells pressed).drop s.cap]) ∧
    ((openedAppendList s.enable_software_debounce s.cells pressed).length = s.cap + 1 →
      (scan s pressed).2.openedTrace
        = [(openedAppendList s.enable_software_debounce s.cells pressed).take s.cap,
           (openedAppendList s.enable_software_debounce s.cells pressed).drop s.cap]) ∧
    (scan s pressed).2.oob = false := by
  have hinitc : BufInv s.cap ScanAcc.init.closedTrace ScanAcc.init.closedBuf :=
    ⟨by simp [ScanAcc.init], by simpa [ScanAcc.init] using hcap⟩
  have hinito : BufInv s.cap ScanAcc.init.openedTrace ScanAcc.init.openedBuf :=
    ⟨by simp [ScanAcc.init], by simpa [ScanAcc.init] using hcap⟩
  obtain ⟨hc, ho, hoob, h4, h5⟩ := scanCells_spec s.enable_software_debounce s.cap
    s.cells pressed ScanAcc.init hinitc hinito rfl
  simp only [ScanAcc.init, List.join_nil, List.nil_append] at h4 h5
  have hscan : (scan s pressed).2 = flush_opened_events (flush_closed_events
      (scanCells s.enable_software_debounce s.cap s.cells pressed ScanAcc.init).2) := rfl
  refine ⟨fun hnc => ?_, fun hno => ?_, ?_⟩
  · rw [hscan, flush_opened_events_closedTrace, flush_closed_events_closedTrace]
    exact chunked_two_invocations s.cap _ _ _ hc.1 hc.2 h4 hnc
  · rw [hscan, flush_opened_events_openedTrace, flush_closed_events_openedTrace,
      flush_closed_events_openedBuf]
    exact chunked_two_invocations s.cap _ _ _ ho.1 ho.2 h5 hno
  · rw [hscan, flush_opened_events_oob, flush_closed_events_oob]
    exact hoob

/-- Witness for C3 (amended): capacity 1, one pass with 2 closed-event
enqueues (two settled pressed cells) and 2 opened-event enqueues (two
UNKNOWN cells reading released): each handler fires exactly twice, carrying
the scancodes in order, with no out-of-bounds write. -/
theorem c3_witness :
    (0 : Nat) < 1 ∧
    (closedAppendList true
        [⟨1, SwitchState.OPEN, 159⟩, ⟨2, SwitchState.OPEN, 159⟩,
         ⟨3, SwitchState.UNKNOWN, 128⟩, ⟨4, SwitchState.UNKNOWN, 128⟩]
        [true, true, false, false]).length = 1 + 1 ∧
    (openedAppendList true
        [⟨1, SwitchState.OPEN, 159⟩, ⟨2, SwitchState.OPEN, 159⟩,
         ⟨3, SwitchState.UNKNOWN, 128⟩, ⟨4, SwitchState.UNKNOWN, 128⟩]
        [true, true, false, false]).length = 1 + 1 ∧
    ((scan ⟨[⟨1, SwitchState.OPEN, 159⟩, ⟨2, SwitchState.OPEN, 159⟩,
         ⟨3, SwitchState.UNKNOWN, 128⟩, ⟨4, SwitchState.UNKNOWN, 128⟩], true, 1⟩
        [true, true, false, false]).2.closedTrace
        = [(closedAppendList true
            [⟨1, SwitchState.OPEN, 159⟩, ⟨2, SwitchState.OPEN, 159⟩,
             ⟨3, SwitchState.UNKNOWN, 128⟩, ⟨4, SwitchState.UNKNOWN, 128⟩]
            [true, true, false, false]).take 1,
           (closedAppendList true
            [⟨1, SwitchState.OPEN, 159⟩, ⟨2, SwitchState.OPEN, 159⟩,
             ⟨3, SwitchState.UNKNOWN, 128⟩, ⟨4, SwitchState.UNKNOWN, 128⟩]
            [true, true, false, false]).drop 1] ∧
     (scan ⟨[⟨1, SwitchState.OPEN, 159⟩, ⟨2, SwitchState.OPEN, 159⟩,
         ⟨3, SwitchState.UNKNOWN, 128⟩, ⟨4, SwitchState.UNKNOWN, 128⟩], true, 1⟩
        [true, true, false, false]).2.openedTrace
        = [(openedAppendList true
            [⟨1, SwitchState.OPEN, 159⟩, ⟨2, SwitchState.OPEN, 159⟩,
             ⟨3, SwitchState.UNKNOWN, 128⟩, ⟨4, SwitchState.UNKNOWN, 128⟩]
            [true, true, false, false]).take 1,
           (openedAppendList true
            [⟨1, SwitchState.OPEN, 159⟩, ⟨2, SwitchState.OPEN, 159⟩,
             ⟨3, SwitchState.UNKNOWN, 128⟩, ⟨4, SwitchState.UNKNOWN, 128⟩]
            [true, true, false, false]).drop 1] ∧
     (scan ⟨[⟨1, SwitchState.OPEN, 159⟩, ⟨2, SwitchState.OPEN, 159⟩,
         ⟨3, SwitchState.UNKNOWN, 128⟩, ⟨4, SwitchState.UNKNOWN, 128⟩], true, 1⟩
        [true, true, false, false]).2.oob = false) :=
  ⟨by decide, by decide, by decide,
    (c3_overflow_two_flushes
      ⟨[⟨1, SwitchState.OPEN, 159⟩, ⟨2, SwitchState.OPEN, 159⟩,
        ⟨3, SwitchState.UNKNOWN, 128⟩, ⟨4, SwitchState.UNKNOWN, 128⟩], true, 1⟩
      [true, true, false, false] (by decide)).1 (by decide),
    (c3_overflow_two_flushes
      ⟨[⟨1, SwitchState.OPEN, 159⟩, ⟨2, SwitchState.OPEN, 159⟩,
        ⟨3, SwitchState.UNKNOWN, 128⟩, ⟨4, SwitchState.UNKNOWN, 128⟩], true, 1⟩
      [true, true, false, false] (by decide)).2.1 (by decide),
    (c3_overflow_two_flushes
      ⟨[⟨1, SwitchState.OPEN, 159⟩, ⟨2, SwitchState.OPEN, 159⟩,
        ⟨3, SwitchState.UNKNOWN, 128⟩, ⟨4, SwitchState.UNKNOWN, 128⟩], true, 1⟩
      [true, true, false, false] (by decide)).2.2⟩

/-- Witness for C8: a 1x1 scanner whose cell is OPEN stays non-UNKNOWN across
a scan with a pressed sample. -/
theorem c8_witness :
    (((⟨[⟨1, SwitchState.OPEN, 0⟩], true, 10⟩ : Scanner).cells.getD 0 default).state
        ≠ SwitchState.UNKNOWN) ∧
    (((scan ⟨[⟨1, SwitchState.OPEN, 0⟩], true, 10⟩ [true]).1.cells.getD 0 default).state
        ≠ SwitchState.UNKNOWN) :=
  ⟨by decide, c8_unknown_never_reentered ⟨[⟨1, SwitchState.OPEN, 0⟩], true, 10⟩ [true] 0
    (by decide)⟩

/-- The scanner after one `scan()` pass (the handler trace discarded). -/
def scanPass (s : Scanner) (pressed : List Bool) : Scanner := (scan s pressed).1

lemma scanPass_length (s : Scanner) (pressed : List Bool) :
    (scanPass s pressed).cells.length = s.cells.length := by
  simp only [scanPass, scan]
  rw [scanCells_fst]
  exact stepCellsList_length _ _ _

lemma scanPass_cell (s : Scanner) (pressed : List Bool) (i : Nat)
    (hi : i < s.cells.length) :
    (scanPass s pressed).cells.getD i default
      = (cellResult s.enable_software_debounce (s.cells.getD i default)
          (pressed.getD i false)).swtch := by
  simp only [scanPass, scan]
  rw [scanCells_fst]
  exact stepCellsList_getD _ _ _ _ hi

lemma handleSwitchState_transition_classes (t : SwitchDef)
    (h : (handleSwitchState t).swtch.state ≠ t.state) :
    ((handleSwitchState t).swtch.state = SwitchState.CLOSED ∧
      (handleSwitchState t).swtch.sample_buffer = 31) ∨
    ((handleSwitchState t).swtch.state = SwitchState.OPEN ∧
      (handleSwitchState t).swtch.sample_buffer = 0) := by
  unfold handleSwitchState at h ⊢
  split_ifs at h ⊢ with h1 h2 h3
  · left
    refine ⟨rfl, ?_⟩
    have hcl := h1.1
    unfold is_closed at hcl
    unfold reset_sample_count
    exact beq_iff_eq.mp hcl
  · right
    refine ⟨rfl, ?_⟩
    have hop := h2.1
    unfold is_open at hop
    unfold reset_sample_count
    exact beq_iff_eq.mp hop
  · right
    refine ⟨rfl, ?_⟩
    have hop := h2.1
    unfold is_open at hop
    unfold reset_sample_count
    exact beq_iff_eq.mp hop
  · exact absurd rfl h

lemma cellResult_transition_classes (t : SwitchDef) (p : Bool)
    (h : (cellResult true t p).swtch.state ≠ t.state) :
    ((cellResult true t p).swtch.state = SwitchState.CLOSED ∧
      (cellResult true t p).swtch.sample_buffer = 31) ∨
    ((cellResult true t p).swtch.state = SwitchState.OPEN ∧
      (cellResult true t p).swtch.sample_buffer = 0) := by
  have heq : cellResult true t p = handleSwitchState
      { t with sample_buffer := handleSoftwareDebounce t.sample_buffer p } := rfl
  rw [heq] at h ⊢
  exact handleSwitchState_transition_classes _ h

lemma handleSwitchState_noop (sc : Nat) (st : SwitchState) (sb : Nat)
    (h1 : ¬(is_closed DebounceSampleMask sb = true ∧ st ≠ SwitchState.CLOSED))
    (h2 : ¬(is_open DebounceSampleMask sb = true ∧ st ≠ SwitchState.OPEN)) :
    handleSwitchState ⟨sc, st, sb⟩ = ⟨⟨sc, st, sb⟩, none, none, false⟩ := by
  unfold handleSwitchState
  rw [if_neg h1, if_neg h2]

lemma step_closed_31 (sc : Nat) (p : Bool) :
    (cellResult true ⟨sc, SwitchState.CLOSED, 31⟩ p).swtch
      = ⟨sc, SwitchState.CLOSED, 63⟩ := by
  have he : cellResult true ⟨sc, SwitchState.CLOSED, 31⟩ p
      = handleSwitchState ⟨sc, SwitchState.CLOSED, handleSoftwareDebounce 31 p⟩ := rfl
  have hd : handleSoftwareDebounce 31 p = 63 := by cases p <;> rfl
  rw [he, hd, handleSwitchState_noop sc SwitchState.CLOSED 63 (by decide) (by decide)]

lemma step_closed_63 (sc : Nat) (p : Bool) :
    (cellResult true ⟨sc, SwitchState.CLOSED, 63⟩ p).swtch
      = ⟨sc, SwitchState.CLOSED, 95⟩ := by
  have he : cellResult true ⟨sc, SwitchState.CLOSED, 63⟩ p
      = handleSwitchState ⟨sc, SwitchState.CLOSED, handleSoftwareDebounce 63 p⟩ := rfl
  have hd : handleSoftwareDebounce 63 p = 95 := by cases p <;> rfl
  rw [he, hd, handleSwitchState_noop sc SwitchState.CLOSED 95 (by decide) (by decide)]

lemma step_closed_95 (sc : Nat) (p : Bool) :
    (cellResult true ⟨sc, SwitchState.CLOSED, 95⟩ p).swtch
      = ⟨sc, SwitchState.CLOSED, 127⟩ := by
  have he : cellResult true ⟨sc, SwitchState.CLOSED, 95⟩ p
      = handleSwitchState ⟨sc, SwitchState.CLOSED, handleSoftwareDebounce 95 p⟩ := rfl
  have hd : handleSoftwareDebounce 95 p = 127 := by cases p <;> rfl
  rw [he, hd, handleSwitchState_noop sc SwitchState.CLOSED 127 (by decide) (by decide)]

lemma step_closed_127 (sc : Nat) (p : Bool) :
    (cellResult true ⟨sc, SwitchState.CLOSED, 127⟩ p).swtch
      = ⟨sc, SwitchState.CLOSED, 159⟩ := by
  have he : cellResult true ⟨sc, SwitchState.CLOSED, 127⟩ p
      = handleSwitchState ⟨sc, SwitchState.CLOSED, handleSoftwareDebounce 127 p⟩ := rfl
  have hd : handleSoftwareDebounce 127 p = 159 := by cases p <;> rfl
  rw [he, hd, handleSwitchState_noop sc SwitchState.CLOSED 159 (by decide) (by decide)]

lemma step_open_0 (sc : Nat) (p : Bool) :
    (cellResult true ⟨sc, SwitchState.OPEN, 0⟩ p).swtch
      = ⟨sc, SwitchState.OPEN, 32⟩ := by
  have he : cellResult true ⟨sc, SwitchState.OPEN, 0⟩ p
      = handleSwitchState ⟨sc, SwitchState.OPEN, handleSoftwareDebounce 0 p⟩ := rfl
  have hd : handleSoftwareDebounce 0 p = 32 := by cases p <;> rfl
  rw [he, hd, handleSwitchState_noop sc SwitchState.OPEN 32 (by decide) (by decide)]

lemma step_open_32 (sc : Nat) (p : Bool) :
    (cellResult true ⟨sc, SwitchState.OPEN, 32⟩ p).swtch
      = ⟨sc, SwitchState.OPEN, 64⟩ := by
  have he : cellResult true ⟨sc, SwitchState.OPEN, 32⟩ p
      = handleSwitchState ⟨sc, SwitchState.OPEN, handleSoftwareDebounce 32 p⟩ := rfl
  have hd : handleSoftwareDebounce 32 p = 64 := by cases p <;> rfl
  rw [he, hd, handleSwitchState_noop sc SwitchState.OPEN 64 (by decide) (by decide)]

lemma step_open_64 (sc : Nat) (p : Bool) :
    (cellResult true ⟨sc, SwitchState.OPEN, 64⟩ p).swtch
      = ⟨sc, SwitchState.OPEN, 96⟩ := by
  have he : cellResult true ⟨sc, SwitchState.OPEN, 64⟩ p
      = handleSwitchState ⟨sc, SwitchState.OPEN, handleSoftwareDebounce 64 p⟩ := rfl
  have hd : handleSoftwareDebounce 64 p = 96 := by cases p <;> rfl
  rw [he, hd, handleSwitchState_noop sc SwitchState.OPEN 96 (by decide) (by decide)]

lemma step_open_96 (sc : Nat) (p : Bool) :
    (cellResult true ⟨sc, SwitchState.OPEN, 96⟩ p).swtch
      = ⟨sc, SwitchState.OPEN, 128⟩ := by
  have he : cellResult true ⟨sc, SwitchState.OPEN, 96⟩ p
      = handleSwitchState ⟨sc, SwitchState.OPEN, handleSoftwareDebounce 96 p⟩ := rfl
  have hd : handleSoftwareDebounce 96 p = 128 := by cases p <;> rfl
  rw [he, hd, handleSwitchState_noop sc SwitchState.OPEN 128 (by decide) (by decide)]

/-- Claim C10: with software debounce enabled, a cell that transitions (to
CLOSED or to OPEN) during some scan() pass does not transition again during
the next DebounceSettleCount (4) passes: the transition leaves the settle
counter at 0 with the sample window uniform in the direction of the newly
latched state (all-1 after CLOSED, all-0 after OPEN), so the next four
debounce steps only increment the settle counter, the window stays uniform,
and `handleSwitchState` finds the state already matching the window. -/
theorem c10_no_retrigger_during_settle (s : Scanner) (hdb : s.enable_software_debounce = true)
    (pressed p1 p2 p3 p4 : List Bool) (i : Nat) (hi : i < s.cells.length)
    (htr : ((scanPass s pressed).cells.getD i default).state
      ≠ (s.cells.getD i default).state) :
    (((scanPass (scanPass s pressed) p1).cells.getD i default).state
      = ((scanPass s pressed).cells.getD i default).state) ∧
    (((scanPass (scanPass (scanPass s pressed) p1) p2).cells.getD i default).state
      = ((scanPass (scanPass s pressed) p1).cells.getD i default).state) ∧
    (((scanPass (scanPass (scanPass (scanPass s pressed) p1) p2) p3).cells.getD
        i default).state
      = ((scanPass (scanPass (scanPass s pressed) p1) p2).cells.getD i default).state) ∧
    (((scanPass (scanPass (scanPass (scanPass (scanPass s pressed) p1) p2) p3) p4).cells.getD
        i default).state
      = ((scanPass (scanPass (scanPass (scanPass s pressed) p1) p2) p3).cells.getD
          i default).state) := by
  have hi0 : i < (scanPass s pressed).cells.length := by
    rw [scanPass_length]; exact hi
  have hi1 : i < (scanPass (scanPass s pressed) p1).cells.length := by
    rw [scanPass_length]; exact hi0
  have hi2 : i < (scanPass (scanPass (scanPass s pressed) p1) p2).cells.length := by
    rw [scanPass_length]; exact hi1
  have hi3 : i < (scanPass (scanPass (scanPass (scanPass s pressed) p1) p2) p3).cells.length := by
    rw [scanPass_length]; exact hi2
  have e0 : (scanPass s pressed).cells.getD i default
      = (cellResult true (s.cells.getD i default) (pressed.getD i false)).swtch := by
    have h := scanPass_cell s pressed i hi
    rw [hdb] at h
    exact h
  rw [e0] at htr
  have e1 : (scanPass (scanPass s pressed) p1).cells.getD i default
      = (cellResult true ((scanPass s pressed).cells.getD i default)
          (p1.getD i false)).swtch := by
    have h := scanPass_cell (scanPass s pressed) p1 i hi0
    rw [show (scanPass s pressed).enable_software_debounce = true from hdb] at h
    exact h
  have e2 : (scanPass (scanPass (scanPass s pressed) p1) p2).cells.getD i default
      = (cellResult true ((scanPass (scanPass s pressed) p1).cells.getD i default)
          (p2.getD i false)).swtch := by
    have h := scanPass_cell (scanPass (scanPass s pressed) p1) p2 i hi1
    rw [show (scanPass (scanPass s pressed) p1).enable_software_debounce = true from hdb] at h
    exact h
  have e3 : (scanPass (scanPass (scanPass (scanPass s pressed) p1) p2) p3).cells.getD
        i default
      = (cellResult true
          ((scanPass (scanPass (scanPass s pressed) p1) p2).cells.getD i default)
          (p3.getD i false)).swtch := by
    have h := scanPass_cell (scanPass (scanPass (scanPass s pressed) p1) p2) p3 i hi2
    rw [show (scanPass (scanPass (scanPass s pressed) p1) p2).enable_software_debounce
        = true from hdb] at h
    exact h
  have e4 : (scanPass (scanPass (scanPass (scanPass (scanPass s pressed) p1) p2) p3)
        p4).cells.getD i default
      = (cellResult true
          ((scanPass (scanPass (scanPass (scanPass s pressed) p1) p2) p3).cells.getD
            i default)
          (p4.getD i false)).swtch := by
    have h := scanPass_cell (scanPass (scanPass (scanPass (scanPass s pressed) p1) p2) p3)
      p4 i hi3
    rw [show (scanPass (scanPass (scanPass (scanPass s pressed) p1) p2)
        p3).enable_software_debounce = true from hdb] at h
    exact h
  rcases cellResult_transition_classes _ _ htr with ⟨hst, hsb⟩ | ⟨hst, hsb⟩
  · have hc0 : (cellResult true (s.cells.getD i default) (pressed.getD i false)).swtch
        = ⟨(cellResult true (s.cells.getD i default) (pressed.getD i false)).swtch.scancode,
            SwitchState.CLOSED, 31⟩ := by
      rw [← hst, ← hsb]
    rw [e0, hc0] at e1 ⊢
    rw [step_closed_31] at e1
    rw [e1] at e2 ⊢
    rw [step_closed_63] at e2
    rw [e2] at e3 ⊢
    rw [step_closed_95] at e3
    rw [e3] at e4 ⊢
    rw [step_closed_127] at e4
    rw [e4]
    exact ⟨rfl, rfl, rfl, rfl⟩
  · have hc0 : (cellResult true (s.cells.getD i default) (pressed.getD i false)).swtch
        = ⟨(cellResult true (s.cells.getD i default) (pressed.getD i false)).swtch.scancode,
            SwitchState.OPEN, 0⟩ := by
      rw [← hst, ← hsb]
    rw [e0, hc0] at e1 ⊢
    rw [step_open_0] at e1
    rw [e1] at e2 ⊢
    rw [step_open_32] at e2
    rw [e2] at e3 ⊢
    rw [step_open_64] at e3
    rw [e3] at e4 ⊢
    rw [step_open_96] at e4
    rw [e4]
    exact ⟨rfl, rfl, rfl, rfl⟩

/-- Witness for C10: a 1x1 scanner whose UNKNOWN cell reads released
transitions to OPEN on the first pass and then holds its state for the next
four passes. -/
theorem c10_witness :
    (⟨[⟨1, SwitchState.UNKNOWN, 0⟩], true, 10⟩ : Scanner).enable_software_debounce = true ∧
    (0 : Nat) < (⟨[⟨1, SwitchState.UNKNOWN, 0⟩], true, 10⟩ : Scanner).cells.length ∧
    (((scanPass ⟨[⟨1, SwitchState.UNKNOWN, 0⟩], true, 10⟩ [false]).cells.getD 0 default).state
      ≠ ((⟨[⟨1, SwitchState.UNKNOWN, 0⟩], true, 10⟩ : Scanner).cells.getD 0 default).state) ∧
    ((((scanPass (scanPass ⟨[⟨1, SwitchState.UNKNOWN, 0⟩], true, 10⟩ [false])
        [false]).cells.getD 0 default).state
      = ((scanPass ⟨[⟨1, SwitchState.UNKNOWN, 0⟩], true, 10⟩ [false]).cells.getD
          0 default).state) ∧
     (((scanPass (scanPass (scanPass ⟨[⟨1, SwitchState.UNKNOWN, 0⟩], true, 10⟩ [false])
        [false]) [false]).cells.getD 0 default).state
      = ((scanPass (scanPass ⟨[⟨1, SwitchState.UNKNOWN, 0⟩], true, 10⟩ [false])
          [false]).cells.getD 0 default).state) ∧
     (((scanPass (scanPass (scanPass (scanPass ⟨[⟨1, SwitchState.UNKNOWN, 0⟩], true, 10⟩
        [false]) [false]) [false]) [false]).cells.getD 0 default).state
      = ((scanPass (scanPass (scanPass ⟨[⟨1, SwitchState.UNKNOWN, 0⟩], true, 10⟩ [false])
          [false]) [false]).cells.getD 0 default).state) ∧
     (((scanPass (scanPass (scanPass (scanPass (scanPass
        ⟨[⟨1, SwitchState.UNKNOWN, 0⟩], true, 10⟩ [false]) [false]) [false]) [false])
        [false]).cells.getD 0 default).state
      = ((scanPass (scanPass (scanPass (scanPass ⟨[⟨1, SwitchState.UNKNOWN, 0⟩], true, 10⟩
          [false]) [false]) [false]) [false]).cells.getD 0 default).state)) :=
  ⟨rfl, by decide, by decide,
    c10_no_retrigger_during_settle ⟨[⟨1, SwitchState.UNKNOWN, 0⟩], true, 10⟩ rfl
      [false] [false] [false] [false] [false] 0 (by decide) (by decide)⟩

end SwitchMatrixScanner
